import Mathlib

/-!
Shallow embedding of `src/docker_entrypoint/_libs/utility.py` from the
v8-docker repository, together with the parts of its collaborators that the
utility functions observe (the `on_rails` Result library's combinators, the
`FailResult` detail, and the `DockerEnvironments` record).

Python dynamism is modelled explicitly:
- a success `Result` value is an `Option String` (the values that flow through
  this module are strings or `None`);
- a failure detail is one of: a `ValidationError` (title, message, code,
  attached `more_data` results), a `FailResult` (numeric code and optional
  message), or the generic detail the `def_result` decorator produces when the
  wrapped body raises an exception;
- arguments that may be `None` or of the wrong runtime type are `Option PyObj`;
- logging is a returned list of `LogLine`s; a computation that may raise a
  Python exception is a `Step α := Except PyExc (α × List LogLine)` (every
  reachable raising path in this module raises before its first log write, so
  no log lines are lost by the `Except` encoding);
- exception message texts approximate CPython's `AttributeError` wording; the
  claims never depend on their exact contents, only on the produced detail not
  being a `ValidationError`.
-/

/-- Log levels: `logging.Logger.info`, `logging.Logger.error`, and the numeric
level passed to `logging.Logger.log`. -/
inductive Level where
  | info
  | error
  | numeric (n : Int)
deriving DecidableEq, Repr

/-- One emitted log record: its level and the formatted message string. -/
structure LogLine where
  level : Level
  msg : String
deriving DecidableEq, Repr

mutual
/-- Failure details observed by this module.

`validation` embeds `on_rails.ValidationError`: default title
"One or more validation errors occurred", default code 400, optional
`more_data` list (here carrying `Result` objects).

`failRes` embeds `docker_entrypoint._libs.ResultDetails.FailResult`, the
repository detail wrapping a numeric process exit/error code and an optional
message (constructed in `convert_code_to_result` as `FailResult(code=code)`).

`exceptionDetail` is the generic (non-validation) error detail that the
`on_rails.def_result` decorator attaches when the wrapped function body raises
an exception. -/
inductive Detail where
  | validation (title : String) (message : String) (code : Int)
      (moreData : List RResult)
  | failRes (code : Int) (message : Option String)
  | exceptionDetail (message : String)

/-- The `on_rails.Result` type: a tagged success/failure container. A success
carries an optional value; a failure carries a `Detail`. -/
inductive RResult where
  | ok (value : Option String)
  | fail (detail : Detail)
end

/-- The default title of an `on_rails.ValidationError`. -/
def validationTitle : String := "One or more validation errors occurred"

/-- An `on_rails.ValidationError(message=msg)` with all defaults: title
"One or more validation errors occurred", code 400, no attached data. -/
def validationError (msg : String) : Detail :=
  Detail.validation validationTitle msg 400 []

/-- Embeds `convert_code_to_result` (utility.py, lines 119-131): code `0` maps
to `Result.ok()` (a success with no value); any other code maps to
`Result.fail(FailResult(code=code))`. -/
def convert_code_to_result (code : Int) : RResult :=
  if code = 0 then RResult.ok none
  else RResult.fail (Detail.failRes code none)

/-- A Python exception, identified by its message. -/
abbrev PyExc := String

/-- An effectful step of the Python code: it either raises an exception or
produces a value together with the log lines written along the way. On every
reachable raising path of this module the exception is raised before the first
log write, so no emitted lines are dropped by this encoding. -/
abbrev Step (α : Type) := Except PyExc (α × List LogLine)

/-- A logger handle carries no data in the model; what matters is whether one
was supplied (`some`) or the argument was `None` (`none`). -/
abbrev Logger := Unit

/-- A Python object in an argument position that the code inspects
dynamically: a `Result` instance, a string, or a list (the tests pass a list as
an invalid non-string title). `None` is `Option.none` at the call sites. -/
inductive PyObj where
  | pyResult (r : RResult)
  | pyStr (s : String)
  | pyList (xs : List String)

/-- Embeds `logger.info(msg)`: writes one info line and returns Python `None`;
raises `AttributeError` when the logger is `None`. -/
def loggerInfo (logger : Option Logger) (msg : String) : Step (Option String) :=
  match logger with
  | some _ => Except.ok (none, [⟨Level.info, msg⟩])
  | none => Except.error "AttributeError: NoneType object has no attribute info"

/-- Embeds `logger.error(msg)`: writes one error line and returns Python
`None`; raises `AttributeError` when the logger is `None`. -/
def loggerError (logger : Option Logger) (msg : String) : Step (Option String) :=
  match logger with
  | some _ => Except.ok (none, [⟨Level.error, msg⟩])
  | none => Except.error "AttributeError: NoneType object has no attribute error"

/-- The `@def_result()` decorator of `on_rails`, applied to a body returning a
`Result`: a normal return passes through; a raised exception is converted into
a failure `Result` carrying a generic (non-validation) error detail. -/
def defResult (body : Step RResult) : RResult × List LogLine :=
  match body with
  | Except.ok x => x
  | Except.error e => (RResult.fail (Detail.exceptionDetail e), [])

/-- Embeds `on_rails` `result.on_success_operate_when(cond, func)`: when the
result is a success whose value satisfies `cond`, run `func` on the value for
its side effects and keep the original result; in every other case return the
result untouched. (The repository's tests pin the keep-original behaviour:
`test_log_result_give_success` asserts the returned result equals the input.) -/
def on_success_operate_when (r : RResult) (cond : Option String → Bool)
    (func : Option String → Step (Option String)) : Step RResult :=
  match r with
  | RResult.ok v =>
    if cond v then
      match func v with
      | Except.ok (_, logs) => Except.ok (r, logs)
      | Except.error e => Except.error e
    else Except.ok (r, [])
  | RResult.fail _ => Except.ok (r, [])

/-- Embeds `on_rails` `result.on_fail(func)`: when the result is a failure,
run `func` on it for its side effects and keep the original failure; on a
success return the result untouched. (Pinned by `test_log_result_expected_fail` /
`test_log_result_unexpected_fail`: the returned result is the original
failure even though `log_error` returns success.) -/
def on_fail (r : RResult) (func : RResult → Step RResult) : Step RResult :=
  match r with
  | RResult.fail _ =>
    match func r with
    | Except.ok (_, logs) => Except.ok (r, logs)
    | Except.error e => Except.error e
  | RResult.ok _ => Except.ok (r, [])

/-- Modelled from the spec: `DockerEnvironments`
(`docker_entrypoint/_libs/docker_environments.py` is not under `src/`). A
plain record of the five environment-derived string fields, named as
`_get_support_message` reads them. -/
structure DockerEnvironments where
  maintainer : String
  docker_version : String
  build_date : String
  vcs_url : String
  bug_report : String

/-- The ambient process environment, restricted to the five values the
Environment Reader consults: `none` models an absent environment variable. -/
structure EnvData where
  maintainer : Option String
  version : Option String
  buildDate : Option String
  vcsUrl : Option String
  bugReport : Option String

/-- Modelled from the spec: `DockerEnvironments.get_environments`
(not under `src/`). Each field defaults to "No Data!" when the underlying
environment value is absent, except the version, which defaults to "latest";
the lookup cannot fail, so the wrapping `Result` is always a success and is
elided from the model. -/
def get_environments (e : EnvData) : DockerEnvironments :=
  { maintainer := e.maintainer.getD "No Data!"
    docker_version := e.version.getD "latest"
    build_date := e.buildDate.getD "No Data!"
    vcs_url := e.vcsUrl.getD "No Data!"
    bug_report := e.bugReport.getD "No Data!" }

/-- The environment with no data set: every variable absent. -/
def emptyEnv : EnvData := ⟨none, none, none, none, none⟩

/-- Embeds `_get_support_message` (utility.py, lines 78-86): formats the five
fields of a `DockerEnvironments` record into the fixed support block. -/
def get_support_message_of (environments : DockerEnvironments) : RResult :=
  RResult.ok (some ("Support:\n" ++
    "\tMaintainer: " ++ environments.maintainer ++ "\n" ++
    "\tDocker Version: " ++ environments.docker_version ++ "\n" ++
    "\tBuild Date: " ++ environments.build_date ++ "\n" ++
    "\tRepository: " ++ environments.vcs_url ++ "\n" ++
    "\tReport Bug: " ++ environments.bug_report ++ "\n"))

/-- Embeds `get_support_message` (utility.py, lines 66-75):
`DockerEnvironments.get_environments().on_success(_get_support_message)`.
Since the modelled `get_environments` always succeeds, the `on_success` chain
reduces to applying `_get_support_message` to its value. -/
def get_support_message (e : EnvData) : RResult :=
  get_support_message_of (get_environments e)

mutual
/-- The textual representation of a failure detail, modelling the `on_rails`
rendering of its title, code, message and attached data observed in the
repository's tests ("Title: ...\nCode: ..." for a `ValidationError`,
"Operation failed with code 5.\nmessage\n" for a `FailResult`); runtime stack
traces are outside the model. -/
def reprDetail : Detail → String
  | Detail.validation title message code moreData =>
    "Title: " ++ title ++ "\nCode: " ++ toString code ++
      "\nMessage: " ++ message ++ "\nMore Data: " ++ reprResultList moreData
  | Detail.failRes code message =>
    "Operation failed with code " ++ toString code ++ ".\n" ++
      (match message with
       | some m => m ++ "\n"
       | none => "")
  | Detail.exceptionDetail message =>
    "Title: An exception occurred\nMessage: " ++ message

/-- The textual representation (`repr`) of a `Result`. -/
def reprResult : RResult → String
  | RResult.ok none => "Result is success."
  | RResult.ok (some v) => "Result is success.\nValue: " ++ v
  | RResult.fail d => reprDetail d

/-- Renders an attached `more_data` list of results. -/
def reprResultList : List RResult → String
  | [] => ""
  | r :: rs => reprResult r ++ reprResultList rs
end

/-- The body of `log_error` (utility.py, lines 42-63), before the
`@def_result()` wrapper. Reading `fail_result.success` on `None` or on a
non-`Result` object raises `AttributeError`. On a success argument it returns
the "Expected failure result but got success result!" validation failure with
the original result attached as `more_data`. On a failure argument it logs
`"An error occurred:\n" ++ repr ++ "\n"` at error level, then chains
`get_support_message().on_success(...)`, logging the report invitation plus
support message at info level; the chain's value (`logger.info`'s `None`,
wrapped back into a success) is the returned result. -/
def log_error_body (e : EnvData) (logger : Option Logger)
    (fail_result : Option PyObj) : Step RResult :=
  match fail_result with
  | none =>
    Except.error "AttributeError: NoneType object has no attribute success"
  | some (PyObj.pyStr _) =>
    Except.error "AttributeError: str object has no attribute success"
  | some (PyObj.pyList _) =>
    Except.error "AttributeError: list object has no attribute success"
  | some (PyObj.pyResult r) =>
    match r with
    | RResult.ok v =>
      Except.ok (RResult.fail (Detail.validation validationTitle
        "Expected failure result but got success result!" 400 [RResult.ok v]),
        [])
    | RResult.fail d =>
      match loggerError logger
          ("An error occurred:\n" ++ reprResult (RResult.fail d) ++ "\n") with
      | Except.error ex => Except.error ex
      | Except.ok (_, logs1) =>
        match get_support_message e with
        | RResult.ok (some support_message) =>
          match loggerInfo logger
              ("Please report this error to help others who use this program.\n"
                ++ support_message) with
          | Except.error ex => Except.error ex
          | Except.ok (_, logs2) =>
            Except.ok (RResult.ok none, logs1 ++ logs2)
        | other => Except.ok (other, logs1)

/-- Embeds `log_error` (utility.py, lines 42-63) with its `@def_result()`
wrapper applied. -/
def log_error (e : EnvData) (logger : Option Logger)
    (fail_result : Option PyObj) : RResult × List LogLine :=
  defResult (log_error_body e logger fail_result)

/-- The body of `log_result` (utility.py, lines 24-39), before the
`@def_result()` wrapper:
`result.on_success_operate_when(value is not None, logger.info(value))
       .on_fail(log_error(logger, prev_result))`.
Calling a combinator on `None` or on a non-`Result` object raises
`AttributeError`. `log_error` is itself `def_result`-wrapped, so inside
`on_fail` it never raises. -/
def log_result_body (e : EnvData) (logger : Option Logger)
    (result : Option PyObj) : Step RResult :=
  match result with
  | none =>
    Except.error
      "AttributeError: NoneType object has no attribute on_success_operate_when"
  | some (PyObj.pyStr _) =>
    Except.error
      "AttributeError: str object has no attribute on_success_operate_when"
  | some (PyObj.pyList _) =>
    Except.error
      "AttributeError: list object has no attribute on_success_operate_when"
  | some (PyObj.pyResult r) =>
    match on_success_operate_when r (fun v => v.isSome)
        (fun v => loggerInfo logger (v.getD "None")) with
    | Except.error ex => Except.error ex
    | Except.ok (r1, logs1) =>
      match on_fail r1 (fun prev =>
          Except.ok (log_error e logger (some (PyObj.pyResult prev)))) with
      | Except.error ex => Except.error ex
      | Except.ok (r2, logs2) => Except.ok (r2, logs1 ++ logs2)

/-- Embeds `log_result` (utility.py, lines 24-39) with its `@def_result()`
wrapper applied. -/
def log_result (e : EnvData) (logger : Option Logger)
    (result : Option PyObj) : RResult × List LogLine :=
  defResult (log_result_body e logger result)

/-- Embeds `log_class_properties` (utility.py, lines 89-116). The object is
modelled as `vars(class_object).items()`: its ordered list of
(attribute name, stringified value) pairs. Python truthiness of the optional
`message`: `None` and the empty string are falsy, every other string (blank
included) is truthy. The function builds
`result = f"{message}:\n" if message else ""`, appends one
`"\t{key}: {value}\n"` line per attribute via the loop, issues a single
`logger.log(log_level, result)` call, and returns `Result.ok()`. -/
def log_class_properties (log_level : Int)
    (class_object : List (String × String)) (message : Option String) :
    RResult × List LogLine :=
  let header : String :=
    match message with
    | some m => if m = "" then "" else m ++ ":\n"
    | none => ""
  let text : String :=
    class_object.foldl (fun acc kv => acc ++ "\t" ++ kv.1 ++ ": " ++ kv.2 ++ "\n")
      header
  (RResult.ok none, [⟨Level.numeric log_level, text⟩])

/-- Modelled from the spec: `class_properties_to_str` is repository code that
the tests (`src/tests/test_lib/test_utility.py`) import from
`docker_entrypoint._libs.utility` but that is missing from the sources under
`src/`. Per §4.4 of the spec: fails with a validation error
("The class object is required.") when the object is absent and
("The message must be a string.") when a supplied title is not a string;
renders each public attribute as a `name: value` line in order; a non-blank
title prefixes the output with `title:` on its own line and indents every
property line one tab; a blank or absent title applies no indentation; the
formatted string is returned as the `Result`'s success value and nothing is
logged. The object is modelled as its ordered list of
(attribute name, stringified value) pairs. -/
def class_properties_to_str (class_object : Option (List (String × String)))
    (title : Option PyObj) : RResult :=
  match class_object with
  | none => RResult.fail (validationError "The class object is required.")
  | some props =>
    match title with
    | none =>
      RResult.ok (some (props.foldl
        (fun acc kv => acc ++ kv.1 ++ ": " ++ kv.2 ++ "\n") ""))
    | some (PyObj.pyStr s) =>
      if s.data.all Char.isWhitespace then
        RResult.ok (some (props.foldl
          (fun acc kv => acc ++ kv.1 ++ ": " ++ kv.2 ++ "\n") ""))
      else
        RResult.ok (some (props.foldl
          (fun acc kv => acc ++ "\t" ++ kv.1 ++ ": " ++ kv.2 ++ "\n")
          (s ++ ":\n")))
    | some (PyObj.pyResult _) =>
      RResult.fail (validationError "The message must be a string.")
    | some (PyObj.pyList _) =>
      RResult.fail (validationError "The message must be a string.")

/-- One `"\t{name}: {value}\n"` line per attribute, in order, written as a
right recursion (independent of the left fold the code uses; the two are
related by `log_class_properties_spec`). -/
def propLines : List (String × String) → String
  | [] => ""
  | kv :: rest => "\t" ++ kv.1 ++ ": " ++ kv.2 ++ "\n" ++ propLines rest

/-- Left-folding string appends equals prepending the seed to the rightward
concatenation of the pieces. -/
theorem foldl_append_propLines (props : List (String × String)) :
    ∀ init : String,
      props.foldl (fun acc kv => acc ++ "\t" ++ kv.1 ++ ": " ++ kv.2 ++ "\n")
        init = init ++ propLines props := by
  induction props with
  | nil => intro init; simp [propLines, String.append_empty]
  | cons kv rest ih =>
    intro init
    rw [List.foldl_cons, ih, propLines]
    simp [String.append_assoc]

/-- C2: `convert_code_to_result` returns a success carrying no value exactly
when the code is `0`; every other integer, negatives included, round-trips
into the `FailResult` detail of the returned failure. -/
theorem convert_code_to_result_spec (code : Int) :
    (convert_code_to_result code = RResult.ok none ↔ code = 0) ∧
    (code ≠ 0 →
      convert_code_to_result code = RResult.fail (Detail.failRes code none)) := by
  constructor
  · constructor
    · intro h
      by_contra hne
      simp [convert_code_to_result, hne] at h
    · intro h
      simp [convert_code_to_result, h]
  · intro h
    simp [convert_code_to_result, h]

/-- Witness for C2 at the concrete inputs `0` and `5`. -/
theorem convert_code_to_result_spec_witness :
    convert_code_to_result 5 = RResult.fail (Detail.failRes 5 none) ∧
    (convert_code_to_result 0 = RResult.ok none ↔ (0 : Int) = 0) :=
  ⟨(convert_code_to_result_spec 5).2 (by decide),
   (convert_code_to_result_spec 0).1⟩

/-- C6: with a valid logger, `log_result` on a success with no value emits
nothing, on a success with value `v` emits exactly one info line equal to `v`,
and in both cases returns the original result unchanged. -/
theorem log_result_success_spec (e : EnvData) :
    log_result e (some ()) (some (PyObj.pyResult (RResult.ok none))) =
      (RResult.ok none, []) ∧
    ∀ s : String,
      log_result e (some ()) (some (PyObj.pyResult (RResult.ok (some s)))) =
        (RResult.ok (some s), [⟨Level.info, s⟩]) :=
  ⟨rfl, fun _ => rfl⟩

/-- C7: with a valid logger, `log_result` on any failure emits exactly the log
lines that `log_error` emits on that failure, and returns the original
failure unchanged (pass-through). -/
theorem log_result_failure_delegates (e : EnvData) (d : Detail) :
    log_result e (some ()) (some (PyObj.pyResult (RResult.fail d))) =
      (RResult.fail d,
       (log_error e (some ()) (some (PyObj.pyResult (RResult.fail d)))).2) :=
  rfl

/-- C4: with a valid logger, `log_error` on a successful result returns a
failure whose detail is the `ValidationError`
"Expected failure result but got success result!" with the original success
attached as `more_data`, and emits no log line. -/
theorem log_error_success_spec (e : EnvData) (v : Option String) :
    log_error e (some ()) (some (PyObj.pyResult (RResult.ok v))) =
      (RResult.fail (Detail.validation validationTitle
        "Expected failure result but got success result!" 400 [RResult.ok v]),
       []) :=
  rfl

/-- C5: with a valid logger, `log_error` on any failure emits exactly one
error line holding the failure's full representation prefixed by
"An error occurred:", then exactly one info line holding the Support Message
prefixed by the report invitation, and returns a success. -/
theorem log_error_failure_spec (e : EnvData) (d : Detail) (m : String)
    (h : get_support_message e = RResult.ok (some m)) :
    log_error e (some ()) (some (PyObj.pyResult (RResult.fail d))) =
      (RResult.ok none,
       [⟨Level.error,
         "An error occurred:\n" ++ reprResult (RResult.fail d) ++ "\n"⟩,
        ⟨Level.info,
         "Please report this error to help others who use this program.\n"
           ++ m⟩]) := by
  simp [log_error, log_error_body, h, loggerError, loggerInfo, defResult]

/-- Witness for C5: the empty environment's support message, and `log_error`
on a concrete `FailResult` failure under it. -/
theorem log_error_failure_spec_witness :
    log_error emptyEnv (some ())
        (some (PyObj.pyResult (RResult.fail (Detail.failRes 5 none)))) =
      (RResult.ok none,
       [⟨Level.error,
         "An error occurred:\n" ++
           reprResult (RResult.fail (Detail.failRes 5 none)) ++ "\n"⟩,
        ⟨Level.info,
         "Please report this error to help others who use this program.\n" ++
           "Support:\n\tMaintainer: No Data!\n\tDocker Version: latest\n\tBuild Date: No Data!\n\tRepository: No Data!\n\tReport Bug: No Data!\n"⟩]) :=
  log_error_failure_spec emptyEnv (Detail.failRes 5 none) _ rfl

/-- C1 (code bug): at the failing inputs the code does not produce the
documented validation failures. With logger `None` and result `None`, both
`log_result` and `log_error` raise `AttributeError` internally, which the
`def_result` wrapper converts into a generic exception detail — not a
`ValidationError` with code 400 and the fixed message — and the same happens
with a valid logger and result `None`; no produced detail is a
`ValidationError` whose message is "The logger is required." or
"The result parameter is required and must be an instance of Result.". -/
theorem log_result_validation_missing :
    log_result emptyEnv none none =
      (RResult.fail (Detail.exceptionDetail
        "AttributeError: NoneType object has no attribute on_success_operate_when"),
       []) ∧
    log_error emptyEnv none none =
      (RResult.fail (Detail.exceptionDetail
        "AttributeError: NoneType object has no attribute success"), []) ∧
    log_result emptyEnv (some ()) none =
      (RResult.fail (Detail.exceptionDetail
        "AttributeError: NoneType object has no attribute on_success_operate_when"),
       []) ∧
    (∀ title code moreData,
      (log_result emptyEnv none none).1 ≠
        RResult.fail
          (Detail.validation title "The logger is required." code moreData)) ∧
    (∀ title code moreData,
      (log_error emptyEnv (some ()) none).1 ≠
        RResult.fail (Detail.validation title
          "The result parameter is required and must be an instance of Result."
          code moreData)) := by
  refine ⟨rfl, rfl, rfl, ?_, ?_⟩ <;>
    · intro title code moreData h
      simp [log_result, log_error, log_result_body, log_error_body,
        defResult] at h

/-- C8: `get_support_message` under the empty environment renders exactly the
documented default block, and for every `DockerEnvironments` record it renders
the fixed five-line tab-indented format with the record's fields
substituted. -/
theorem get_support_message_spec :
    get_support_message emptyEnv =
      RResult.ok (some
        "Support:\n\tMaintainer: No Data!\n\tDocker Version: latest\n\tBuild Date: No Data!\n\tRepository: No Data!\n\tReport Bug: No Data!\n") ∧
    ∀ envs : DockerEnvironments,
      get_support_message_of envs =
        RResult.ok (some ("Support:\n" ++
          "\tMaintainer: " ++ envs.maintainer ++ "\n" ++
          "\tDocker Version: " ++ envs.docker_version ++ "\n" ++
          "\tBuild Date: " ++ envs.build_date ++ "\n" ++
          "\tRepository: " ++ envs.vcs_url ++ "\n" ++
          "\tReport Bug: " ++ envs.bug_report ++ "\n")) :=
  ⟨rfl, fun _ => rfl⟩

/-- C3: on the object with fields `prop1="prop1"`, `prop2="prop2"` the
formatter returns the formatted text as the success value (nothing is
logged): without a title `"prop1: prop1\nprop2: prop2\n"`, with title
`"message"` the title-headed tab-indented block, and with any whitespace-only
title exactly the no-title output. -/
theorem class_properties_to_str_spec :
    class_properties_to_str (some [("prop1", "prop1"), ("prop2", "prop2")])
        none = RResult.ok (some "prop1: prop1\nprop2: prop2\n") ∧
    class_properties_to_str (some [("prop1", "prop1"), ("prop2", "prop2")])
        (some (PyObj.pyStr "message")) =
      RResult.ok (some "message:\n\tprop1: prop1\n\tprop2: prop2\n") ∧
    ∀ s : String, s.data.all Char.isWhitespace = true →
      ∀ props : List (String × String),
        class_properties_to_str (some props) (some (PyObj.pyStr s)) =
          class_properties_to_str (some props) none := by
  refine ⟨rfl, rfl, ?_⟩
  intro s hs props
  simp [class_properties_to_str, hs]

/-- Witness for C3: the whitespace-only title `"   "` on the example object
behaves exactly like no title. -/
theorem class_properties_to_str_spec_witness :
    class_properties_to_str (some [("prop1", "prop1"), ("prop2", "prop2")])
        (some (PyObj.pyStr "   ")) =
      class_properties_to_str (some [("prop1", "prop1"), ("prop2", "prop2")])
        none :=
  class_properties_to_str_spec.2.2 "   " (by decide)
    [("prop1", "prop1"), ("prop2", "prop2")]

/-- C9: the formatter returns (never throws) a `ValidationError` with code 400
and message "The class object is required." whenever the object is absent —
whatever the title — and one with message "The message must be a string."
whenever the object is present but the supplied title is not a string. -/
theorem class_properties_to_str_validation (title : Option PyObj)
    (props : List (String × String)) (r : RResult) (xs : List String) :
    class_properties_to_str none title =
      RResult.fail
        (Detail.validation validationTitle "The class object is required."
          400 []) ∧
    class_properties_to_str (some props) (some (PyObj.pyResult r)) =
      RResult.fail
        (Detail.validation validationTitle "The message must be a string."
          400 []) ∧
    class_properties_to_str (some props) (some (PyObj.pyList xs)) =
      RResult.fail
        (Detail.validation validationTitle "The message must be a string."
          400 []) :=
  ⟨rfl, rfl, rfl⟩

/-- C10: for every object, level and optional message, `log_class_properties`
issues exactly one `logger.log` call at the supplied level whose single
message is one `"\tname: value\n"` line per attribute in order, prefixed by
`"{message}:\n"` exactly when the message is truthy, and returns a success
carrying no value — the text goes only to the logger, never into the
result. -/
theorem log_class_properties_spec (log_level : Int)
    (props : List (String × String)) (message : Option String) :
    log_class_properties log_level props message =
      (RResult.ok none,
       [⟨Level.numeric log_level,
         (match message with
          | some m => if m = "" then "" else m ++ ":\n"
          | none => "") ++ propLines props⟩]) := by
  simp [log_class_properties, foldl_append_propLines]
